import Mathlib

/-!
Shallow embedding of the OAuth 2.1 authorization-server core of the
Git-GPT-App repository (`src/server/src/mcp-oauth.ts` and the OAuth
endpoints of `src/server/src/index.ts`).

JavaScript `Map<string, T>` stores are embedded as functions
`String → Option T`.  `Date.now()` is passed explicitly as a `Nat`
millisecond timestamp.  Values produced by `crypto.randomBytes` (codes,
tokens) are passed explicitly as parameters; freshness hypotheses model
the randomness.  The external `crypto.createHash('sha256')...digest('base64url')`
pipeline is an abstract parameter `hash : String → String`.
JavaScript string truthiness (`undefined` and `""` are falsy) is
`jsTruthy`, and `a || b` on optional strings is `jsOr`.
-/

namespace GitGPT

/-- JS truthiness for an optional string: `undefined` and `""` are falsy. -/
def jsTruthy : Option String → Bool
  | none => false
  | some s => decide (s ≠ "")

/-- JS `a || b` on optional strings. -/
def jsOr (a b : Option String) : Option String :=
  if jsTruthy a then a else b

/-- Pointwise update of a store, embedding `Map.set`. -/
def mset {α : Type} (m : String → Option α) (k : String) (v : α) : String → Option α :=
  fun k' => if k' = k then some v else m k'

/-- Pointwise removal from a store, embedding `Map.delete`. -/
def mdel {α : Type} (m : String → Option α) (k : String) : String → Option α :=
  fun k' => if k' = k then none else m k'

/-- Keep only the entries whose expiry has not passed (the loop bodies of
`cleanupExpiredTokens` delete every entry with `now > expiresAt`). -/
def mfilterExpiry {α : Type} (m : String → Option α) (exp : α → Nat) (now : Nat) :
    String → Option α :=
  fun k =>
    match m k with
    | some d => if now > exp d then none else some d
    | none => none

/-- `AuthorizationCode` record from mcp-oauth.ts. -/
structure AuthorizationCode where
  clientId : String
  redirectUri : String
  codeChallenge : Option String
  codeChallengeMethod : Option String
  expiresAt : Nat
  scope : Option String
  resource : Option String
deriving DecidableEq, Repr

/-- `IssuedToken` record (access token) from mcp-oauth.ts. -/
structure IssuedToken where
  expiresAt : Nat
  clientId : String
  scope : Option String
  refreshToken : Option String
  resource : Option String
deriving DecidableEq, Repr

/-- `RefreshToken` record from mcp-oauth.ts. -/
structure RefreshToken where
  expiresAt : Nat
  clientId : String
  scope : Option String
  accessToken : Option String
  resource : Option String
deriving DecidableEq, Repr

/-- `RegisteredClient` record from mcp-oauth.ts. -/
structure RegisteredClient where
  client_id : String
  client_secret : String
  client_name : Option String
  redirect_uris : List String
  grant_types : List String
  response_types : List String
  token_endpoint_auth_method : String
  created_at : Nat
deriving DecidableEq, Repr

/-- The three mutable token stores of mcp-oauth.ts. -/
structure OAuthState where
  authorizationCodes : String → Option AuthorizationCode
  issuedTokens : String → Option IssuedToken
  refreshTokens : String → Option RefreshToken

/-- The stores start empty. -/
def emptyState : OAuthState :=
  { authorizationCodes := fun _ => none
    issuedTokens := fun _ => none
    refreshTokens := fun _ => none }

/-- `TOKEN_EXPIRY_MS` (1 hour). -/
def TOKEN_EXPIRY_MS : Nat := 60 * 60 * 1000

/-- `REFRESH_TOKEN_EXPIRY_MS` (30 days). -/
def REFRESH_TOKEN_EXPIRY_MS : Nat := 30 * 24 * 60 * 60 * 1000

/-- `AUTH_CODE_EXPIRY_MS` (10 minutes). -/
def AUTH_CODE_EXPIRY_MS : Nat := 10 * 60 * 1000

/-- Result record of `validateAuthorizationCode`. -/
structure CodeValidationResult where
  valid : Bool
  error : Option String
  scope : Option String
  resource : Option String
deriving DecidableEq, Repr

/-- Result record of `validateRefreshToken`. -/
structure RefreshValidationResult where
  valid : Bool
  clientId : Option String
  scope : Option String
  resource : Option String
  error : Option String
deriving DecidableEq, Repr

/-- Short-hand for the failing results of `validateAuthorizationCode`. -/
def codeInvalid (e : String) : CodeValidationResult :=
  { valid := false, error := some e, scope := none, resource := none }

/-- `generateAuthorizationCode` from mcp-oauth.ts; the random `code` string
is a parameter.  Returns the code and the updated store. -/
def generateAuthorizationCode (s : OAuthState) (now : Nat)
    (clientId redirectUri : String)
    (codeChallenge codeChallengeMethod scope resource : Option String)
    (code : String) : String × OAuthState :=
  let record : AuthorizationCode :=
    { clientId := clientId
      redirectUri := redirectUri
      codeChallenge := codeChallenge
      codeChallengeMethod := codeChallengeMethod
      expiresAt := now + AUTH_CODE_EXPIRY_MS
      scope := scope
      resource := resource }
  (code, { s with authorizationCodes := mset s.authorizationCodes code record })

/-- `validateAuthorizationCode` from mcp-oauth.ts: look the code up, check
expiry (deleting an expired code), client id, redirect URI, then PKCE when a
truthy challenge was stored with method exactly `S256`; on success consume
the code and return its scope/resource. -/
def validateAuthorizationCode (hash : String → String) (s : OAuthState) (now : Nat)
    (code clientId redirectUri : String) (codeVerifier : Option String) :
    CodeValidationResult × OAuthState :=
  match s.authorizationCodes code with
  | none => (codeInvalid "Invalid authorization code", s)
  | some authCode =>
    if now > authCode.expiresAt then
      (codeInvalid "Authorization code expired",
       { s with authorizationCodes := mdel s.authorizationCodes code })
    else if authCode.clientId ≠ clientId then
      (codeInvalid "Client ID mismatch", s)
    else if authCode.redirectUri ≠ redirectUri then
      (codeInvalid "Redirect URI mismatch", s)
    else
      if (jsTruthy authCode.codeChallenge &&
          decide (authCode.codeChallengeMethod = some "S256")) && !(jsTruthy codeVerifier) then
        (codeInvalid "Code verifier required", s)
      else if (jsTruthy authCode.codeChallenge &&
          decide (authCode.codeChallengeMethod = some "S256")) &&
          decide (hash (codeVerifier.getD "") ≠ authCode.codeChallenge.getD "") then
        (codeInvalid "Invalid code verifier", s)
      else
        ({ valid := true, error := none, scope := authCode.scope, resource := authCode.resource },
         { s with authorizationCodes := mdel s.authorizationCodes code })

/-- `cleanupExpiredTokens` from mcp-oauth.ts: delete every entry of all
three stores whose expiry has passed (`now > expiresAt`). -/
def cleanupExpiredTokens (s : OAuthState) (now : Nat) : OAuthState :=
  { authorizationCodes := mfilterExpiry s.authorizationCodes (fun d => d.expiresAt) now
    issuedTokens := mfilterExpiry s.issuedTokens (fun d => d.expiresAt) now
    refreshTokens := mfilterExpiry s.refreshTokens (fun d => d.expiresAt) now }

/-- `generateTokenPair` from mcp-oauth.ts: store the access token linked to
the refresh token and vice versa, then run `cleanupExpiredTokens`.  The two
random token strings are parameters. -/
def generateTokenPair (s : OAuthState) (now : Nat) (clientId : String)
    (scope resource : Option String) (accessToken refreshToken : String) :
    (String × String) × OAuthState :=
  let accessExpiresAt := now + TOKEN_EXPIRY_MS
  let refreshExpiresAt := now + REFRESH_TOKEN_EXPIRY_MS
  let accessRecord : IssuedToken :=
    { expiresAt := accessExpiresAt
      clientId := clientId
      scope := scope
      refreshToken := some refreshToken
      resource := resource }
  let refreshRecord : RefreshToken :=
    { expiresAt := refreshExpiresAt
      clientId := clientId
      scope := scope
      accessToken := some accessToken
      resource := resource }
  let s1 := { s with issuedTokens := mset s.issuedTokens accessToken accessRecord }
  let s2 := { s1 with refreshTokens := mset s1.refreshTokens refreshToken refreshRecord }
  ((accessToken, refreshToken), cleanupExpiredTokens s2 now)

/-- `validateAccessToken` from mcp-oauth.ts: true iff the token is present
and `now > expiresAt` is false; an expired entry is deleted on lookup. -/
def validateAccessToken (s : OAuthState) (now : Nat) (token : String) :
    Bool × OAuthState :=
  match s.issuedTokens token with
  | none => (false, s)
  | some tokenData =>
    if now > tokenData.expiresAt then
      (false, { s with issuedTokens := mdel s.issuedTokens token })
    else
      (true, s)

/-- `validateRefreshToken` from mcp-oauth.ts. -/
def validateRefreshToken (s : OAuthState) (now : Nat) (token : String) :
    RefreshValidationResult × OAuthState :=
  match s.refreshTokens token with
  | none =>
    ({ valid := false, clientId := none, scope := none, resource := none,
       error := some "Invalid refresh token" }, s)
  | some tokenData =>
    if now > tokenData.expiresAt then
      ({ valid := false, clientId := none, scope := none, resource := none,
         error := some "Refresh token expired" },
       { s with refreshTokens := mdel s.refreshTokens token })
    else
      ({ valid := true, clientId := some tokenData.clientId, scope := tokenData.scope,
         resource := tokenData.resource, error := none }, s)

/-- `revokeRefreshToken` from mcp-oauth.ts: delete the linked access token
when the stored link is truthy, then delete the refresh token itself. -/
def revokeRefreshToken (s : OAuthState) (token : String) : OAuthState :=
  match s.refreshTokens token with
  | some tokenData =>
    let s1 :=
      if jsTruthy tokenData.accessToken then
        { s with issuedTokens := mdel s.issuedTokens (tokenData.accessToken.getD "") }
      else s
    { s1 with refreshTokens := mdel s1.refreshTokens token }
  | none =>
    { s with refreshTokens := mdel s.refreshTokens token }

/-- The JSON body built by `getTokenResponse` in mcp-oauth.ts. -/
structure TokenResponse where
  access_token : String
  token_type : String
  expires_in : Nat
  refresh_token : String
  scope : Option String
deriving DecidableEq, Repr

/-- `getTokenResponse` from mcp-oauth.ts (`scope` only set when truthy). -/
def getTokenResponse (accessToken refreshToken : String) (scope : Option String) :
    TokenResponse :=
  { access_token := accessToken
    token_type := "Bearer"
    expires_in := TOKEN_EXPIRY_MS / 1000
    refresh_token := refreshToken
    scope := if jsTruthy scope then scope else none }

/-- Outcome of a `POST /oauth/token` handler branch in index.ts. -/
inductive HttpTokenResult where
  | err (status : Nat) (error : String) (description : String)
  | ok (resp : TokenResponse)
deriving DecidableEq, Repr

/-- The `authorization_code` branch of `app.post('/oauth/token')` in
index.ts.  `authClientId` is the merged body/Basic-header client id. -/
def authorizationCodeGrant (hash : String → String) (s : OAuthState) (now : Nat)
    (authClientId code redirect_uri code_verifier resource : Option String)
    (freshAccess freshRefresh : String) : HttpTokenResult × OAuthState :=
  if !(jsTruthy code) then
    (.err 400 "invalid_request" "Missing authorization code", s)
  else if !(jsTruthy redirect_uri) then
    (.err 400 "invalid_request" "Missing redirect_uri", s)
  else
    let p := validateAuthorizationCode hash s now (code.getD "") (authClientId.getD "")
      (redirect_uri.getD "") code_verifier
    if !p.1.valid then
      (.err 400 "invalid_grant" (p.1.error.getD "Invalid authorization code"), p.2)
    else
      let tokenResource := jsOr p.1.resource resource
      let q := generateTokenPair p.2 now ((jsOr authClientId (some "chatgpt")).getD "chatgpt")
        p.1.scope tokenResource freshAccess freshRefresh
      (.ok (getTokenResponse q.1.1 q.1.2 p.1.scope), q.2)

/-- The `refresh_token` branch of `app.post('/oauth/token')` in index.ts:
validate the refresh token, check the client id matches, revoke the old
pair, then issue a new pair carrying the validated scope and
`validation.resource || resource`. -/
def refreshTokenGrant (s : OAuthState) (now : Nat)
    (authClientId refresh_token resource : Option String)
    (freshAccess freshRefresh : String) : HttpTokenResult × OAuthState :=
  if !(jsTruthy refresh_token) then
    (.err 400 "invalid_request" "Missing refresh_token", s)
  else
    let p := validateRefreshToken s now (refresh_token.getD "")
    if !p.1.valid then
      (.err 401 "invalid_grant" (p.1.error.getD "Invalid or expired refresh token"), p.2)
    else if p.1.clientId ≠ authClientId then
      (.err 401 "invalid_grant" "Client ID mismatch", p.2)
    else
      let s2 := revokeRefreshToken p.2 (refresh_token.getD "")
      let tokenResource := jsOr p.1.resource resource
      let q := generateTokenPair s2 now ((jsOr authClientId (some "chatgpt")).getD "chatgpt")
        p.1.scope tokenResource freshAccess freshRefresh
      (.ok (getTokenResponse q.1.1 q.1.2 p.1.scope), q.2)

/-- `validateClientId` from mcp-oauth.ts: the client is known when it is in
the registry or equals the environment default client id. -/
def validateClientId (clients : String → Option RegisteredClient)
    (envClientId : String) (clientId : String) : Bool :=
  match clients clientId with
  | some _ => true
  | none => decide (clientId = envClientId)

/-- Outcome of `app.get('/oauth/authorize')` in index.ts; a redirect is
recorded structurally as target URI, attached code and echoed state.
`thrown` is the uncaught `TypeError` raised by `new URL(redirect_uri)` on
a malformed URI string, which Express turns into a 500 response with no
redirect. -/
inductive AuthorizeResult where
  | err (status : Nat) (error : String) (description : String)
  | redirect (uri : String) (code : String) (state : Option String)
  | thrown
deriving DecidableEq, Repr

/-- `app.get('/oauth/authorize')` from index.ts: validate the client id and
response type, require a truthy redirect_uri, then issue a code (stored
unconditionally) and build `new URL(redirect_uri)` — which throws on a
string the WHATWG URL parser rejects, after the code was already stored —
before redirecting with the code (and state when truthy) attached.
Success of the external `new URL` parse is the predicate parameter
`parseOk`.  The registered redirect URI list is never consulted. -/
def oauthAuthorize (parseOk : String → Bool)
    (clients : String → Option RegisteredClient) (envClientId : String)
    (s : OAuthState) (now : Nat)
    (client_id redirect_uri response_type state code_challenge code_challenge_method
      scope resource : Option String)
    (freshCode : String) : AuthorizeResult × OAuthState :=
  if !(jsTruthy client_id) || !(validateClientId clients envClientId (client_id.getD "")) then
    (.err 400 "invalid_client" "Unknown or invalid client_id", s)
  else if response_type ≠ some "code" then
    (.err 400 "unsupported_response_type" "Only \"code\" response type is supported", s)
  else if !(jsTruthy redirect_uri) then
    (.err 400 "invalid_request" "redirect_uri is required", s)
  else
    let p := generateAuthorizationCode s now (client_id.getD "") (redirect_uri.getD "")
      code_challenge code_challenge_method scope resource freshCode
    if parseOk (redirect_uri.getD "") then
      (.redirect (redirect_uri.getD "") p.1 (if jsTruthy state then state else none), p.2)
    else
      (.thrown, p.2)

/-! ### Store lemmas -/

theorem mset_get_self {α : Type} (m : String → Option α) (k : String) (v : α) :
    mset m k v k = some v := by
  simp [mset]

theorem mset_get_ne {α : Type} (m : String → Option α) {k k' : String} (h : k' ≠ k) (v : α) :
    mset m k v k' = m k' := by
  simp [mset, h]

theorem mdel_get_self {α : Type} (m : String → Option α) (k : String) :
    mdel m k k = none := by
  simp [mdel]

theorem mdel_get_ne {α : Type} (m : String → Option α) {k k' : String} (h : k' ≠ k) :
    mdel m k k' = m k' := by
  simp [mdel, h]

theorem mfilterExpiry_get_some {α : Type} (m : String → Option α) (exp : α → Nat)
    (now : Nat) (k : String) (d : α) :
    mfilterExpiry m exp now k = some d ↔ m k = some d ∧ now ≤ exp d := by
  unfold mfilterExpiry
  cases h : m k with
  | none => simp
  | some d' =>
    by_cases he : now > exp d'
    · simp only [if_pos he]
      constructor
      · intro h2; exact absurd h2 (by simp)
      · rintro ⟨h2, hle⟩
        injection h2 with h2
        subst h2
        omega
    · simp only [if_neg he]
      constructor
      · intro h2
        injection h2 with h2
        subst h2
        exact ⟨rfl, by omega⟩
      · rintro ⟨h2, _⟩
        exact h2

/-- Absent codes always fail with "Invalid authorization code" and leave
the store untouched. -/
theorem validateAuthorizationCode_absent (hash : String → String) (s : OAuthState)
    (now : Nat) (code cid ruri : String) (v : Option String)
    (h : s.authorizationCodes code = none) :
    validateAuthorizationCode hash s now code cid ruri v =
      (codeInvalid "Invalid authorization code", s) := by
  unfold validateAuthorizationCode
  rw [h]

/-- Whenever code validation succeeds, the post-state deletes the code. -/
theorem validateAuthorizationCode_success_state (hash : String → String) (s : OAuthState)
    (now : Nat) (code cid ruri : String) (v : Option String)
    (h : (validateAuthorizationCode hash s now code cid ruri v).1.valid = true) :
    (validateAuthorizationCode hash s now code cid ruri v).2 =
      { s with authorizationCodes := mdel s.authorizationCodes code } := by
  unfold validateAuthorizationCode at h ⊢
  cases hm : s.authorizationCodes code with
  | none =>
    rw [hm] at h
    simp [codeInvalid] at h
  | some ac =>
    dsimp only at h ⊢
    split_ifs at h ⊢ <;> simp_all [codeInvalid]

/-! ### Fixtures: concrete states used by counterexamples and witnesses -/

/-- A constant stand-in for the abstract SHA-256/base64url hash in
concrete witnesses. -/
def hashConst : String → String := fun _ => "HASH"

/-- A stored access token expiring at millisecond 100. -/
def fixAccessRecord : IssuedToken :=
  { expiresAt := 100, clientId := "cl", scope := none, refreshToken := some "R", resource := none }

/-- A state holding only the access token `tok` that expires at 100. -/
def fixAccessState : OAuthState :=
  { emptyState with issuedTokens := mset emptyState.issuedTokens "tok" fixAccessRecord }

/-- A plain authorization code (no PKCE) expiring at millisecond 1000. -/
def fixPlainCodeRecord : AuthorizationCode :=
  { clientId := "cl", redirectUri := "u", codeChallenge := none, codeChallengeMethod := none,
    expiresAt := 1000, scope := some "sc", resource := none }

/-- A state holding only the authorization code `code1`. -/
def fixPlainCodeState : OAuthState :=
  { emptyState with authorizationCodes := mset emptyState.authorizationCodes "code1" fixPlainCodeRecord }

/-! ### C1: authorization codes are single-use -/

/-- C1: whenever `validateAuthorizationCode` succeeds, the code is removed
from the authorization-code store, and every subsequent redemption with
the same code string — for any hash function, time, client id, redirect
URI or verifier — fails with "Invalid authorization code" (surfaced by the
token endpoint as `invalid_grant`) and leaves the store unchanged. -/
theorem authorization_code_single_use (hash : String → String) (s : OAuthState)
    (now : Nat) (code cid ruri : String) (v : Option String)
    (h : (validateAuthorizationCode hash s now code cid ruri v).1.valid = true) :
    (validateAuthorizationCode hash s now code cid ruri v).2.authorizationCodes code = none ∧
    (∀ (hash2 : String → String) (now2 : Nat) (cid2 ruri2 : String) (v2 : Option String),
      validateAuthorizationCode hash2 (validateAuthorizationCode hash s now code cid ruri v).2
          now2 code cid2 ruri2 v2 =
        (codeInvalid "Invalid authorization code",
         (validateAuthorizationCode hash s now code cid ruri v).2)) ∧
    (∀ (hash2 : String → String) (now2 : Nat) (cid2 : Option String) (ruri2 : String)
        (v2 resource2 : Option String) (fa fr : String), code ≠ "" → ruri2 ≠ "" →
      authorizationCodeGrant hash2 (validateAuthorizationCode hash s now code cid ruri v).2 now2
          cid2 (some code) (some ruri2) v2 resource2 fa fr =
        (.err 400 "invalid_grant" "Invalid authorization code",
         (validateAuthorizationCode hash s now code cid ruri v).2)) := by
  have hstate := validateAuthorizationCode_success_state hash s now code cid ruri v h
  have habsent : (validateAuthorizationCode hash s now code cid ruri v).2.authorizationCodes code
      = none := by
    rw [hstate]
    exact mdel_get_self _ _
  refine ⟨habsent, fun hash2 now2 cid2 ruri2 v2 => ?_, fun hash2 now2 cid2 ruri2 v2 r2 fa fr hc hr => ?_⟩
  · exact validateAuthorizationCode_absent hash2 _ now2 code cid2 ruri2 v2 habsent
  · have h1 : jsTruthy (some code) = true := by simp [jsTruthy, hc]
    have h2 : jsTruthy (some ruri2) = true := by simp [jsTruthy, hr]
    have habs2 := validateAuthorizationCode_absent hash2
      ((validateAuthorizationCode hash s now code cid ruri v).2) now2 code (cid2.getD "")
      ruri2 v2 habsent
    simp [authorizationCodeGrant, h1, h2, habs2, codeInvalid]

/-- C1 witness: a concrete code redeemed once succeeds; the code is gone
and a second redemption fails. -/
theorem authorization_code_single_use_witness :
    (validateAuthorizationCode hashConst fixPlainCodeState 0 "code1" "cl" "u" none).2.authorizationCodes
        "code1" = none ∧
    validateAuthorizationCode hashConst
        (validateAuthorizationCode hashConst fixPlainCodeState 0 "code1" "cl" "u" none).2
        5 "code1" "other" "elsewhere" (some "vv") =
      (codeInvalid "Invalid authorization code",
       (validateAuthorizationCode hashConst fixPlainCodeState 0 "code1" "cl" "u" none).2) :=
  have h := authorization_code_single_use hashConst fixPlainCodeState 0 "code1" "cl" "u" none
    (by decide)
  ⟨h.1, h.2.1 hashConst 5 "other" "elsewhere" (some "vv")⟩

/-- A code stored with method S256 but an empty-string challenge. -/
def fixEmptyChalRecord : AuthorizationCode :=
  { clientId := "cl", redirectUri := "u", codeChallenge := some "",
    codeChallengeMethod := some "S256", expiresAt := 1000, scope := none, resource := none }

/-- A state holding only the empty-challenge code `c1`. -/
def fixEmptyChalState : OAuthState :=
  { emptyState with authorizationCodes := mset emptyState.authorizationCodes "c1" fixEmptyChalRecord }

/-- A code stored with method S256 and the challenge "HASH". -/
def fixS256Record : AuthorizationCode :=
  { clientId := "cl", redirectUri := "u", codeChallenge := some "HASH",
    codeChallengeMethod := some "S256", expiresAt := 1000, scope := none, resource := none }

/-- A state holding only the S256 code `c2`. -/
def fixS256State : OAuthState :=
  { emptyState with authorizationCodes := mset emptyState.authorizationCodes "c2" fixS256Record }

/-- A code stored with a non-empty challenge but method "plain". -/
def fixPlainMethodRecord : AuthorizationCode :=
  { clientId := "cl", redirectUri := "u", codeChallenge := some "HASH",
    codeChallengeMethod := some "plain", expiresAt := 1000, scope := some "sc", resource := some "res" }

/-- A state holding only the method-"plain" code `c3`. -/
def fixPlainMethodState : OAuthState :=
  { emptyState with authorizationCodes := mset emptyState.authorizationCodes "c3" fixPlainMethodRecord }

/-! ### C4: PKCE soundness for S256 -/

/-- C4 counterexample: the JS truthiness guard `authCode.codeChallenge &&`
skips PKCE entirely when the stored challenge is the empty string, so a
code stored with `codeChallengeMethod = "S256"` and challenge `""` is
redeemed successfully with no verifier at all, where the claim demands
failure with "Code verifier required". -/
theorem pkce_empty_challenge_counterexample :
    fixEmptyChalState.authorizationCodes "c1" = some fixEmptyChalRecord ∧
    fixEmptyChalRecord.codeChallengeMethod = some "S256" ∧
    fixEmptyChalRecord.codeChallenge = some "" ∧
    (validateAuthorizationCode hashConst fixEmptyChalState 0 "c1" "cl" "u" none).1.valid = true :=
  ⟨by decide, by decide, by decide, by decide⟩

/-- C4 amended: for every code stored with method S256 and a NON-EMPTY
challenge `H`, validation succeeds only with a non-empty verifier hashing
to `H`; a missing (or empty, which JS truthiness treats as missing)
verifier fails "Code verifier required", a non-matching one fails
"Invalid code verifier", and a matching one succeeds. -/
theorem pkce_s256_sound (s : OAuthState) (now : Nat) (code : String)
    (ac : AuthorizationCode) (H : String)
    (hcode : s.authorizationCodes code = some ac)
    (hch : ac.codeChallenge = some H) (hne : H ≠ "")
    (hmeth : ac.codeChallengeMethod = some "S256")
    (hexp : now ≤ ac.expiresAt) :
    (∀ (hash : String → String) (v : Option String),
      (validateAuthorizationCode hash s now code ac.clientId ac.redirectUri v).1.valid = true →
      ∃ ver, v = some ver ∧ ver ≠ "" ∧ hash ver = H) ∧
    (∀ (hash : String → String) (v : Option String), jsTruthy v = false →
      validateAuthorizationCode hash s now code ac.clientId ac.redirectUri v =
        (codeInvalid "Code verifier required", s)) ∧
    (∀ (hash : String → String) (ver : String), ver ≠ "" → hash ver ≠ H →
      validateAuthorizationCode hash s now code ac.clientId ac.redirectUri (some ver) =
        (codeInvalid "Invalid code verifier", s)) ∧
    (∀ (hash : String → String) (ver : String), ver ≠ "" → hash ver = H →
      validateAuthorizationCode hash s now code ac.clientId ac.redirectUri (some ver) =
        ({ valid := true, error := none, scope := ac.scope, resource := ac.resource },
         { s with authorizationCodes := mdel s.authorizationCodes code })) := by
  have hnexp : ¬ now > ac.expiresAt := by omega
  have hH : jsTruthy (some H) = true := by simp [jsTruthy, hne]
  refine ⟨fun hash v hvalid => ?_, fun hash v hv => ?_, fun hash ver hv hh => ?_,
    fun hash ver hv hh => ?_⟩
  · rcases v with _ | ver
    · simp [validateAuthorizationCode, hcode, hnexp, hch, hmeth, hH, hne, jsTruthy, codeInvalid]
        at hvalid
    · by_cases hv : ver = ""
      · subst hv
        simp [validateAuthorizationCode, hcode, hnexp, hch, hmeth, hH, hne, jsTruthy, codeInvalid]
          at hvalid
      · by_cases hh : hash ver = H
        · exact ⟨ver, rfl, hv, hh⟩
        · have hv' : jsTruthy (some ver) = true := by simp [jsTruthy, hv]
          simp [validateAuthorizationCode, hcode, hnexp, hch, hmeth, hH, hv', hh,
            codeInvalid] at hvalid
  · simp [validateAuthorizationCode, hcode, hnexp, hch, hmeth, hH, hv]
  · have hv' : jsTruthy (some ver) = true := by simp [jsTruthy, hv]
    simp [validateAuthorizationCode, hcode, hnexp, hch, hmeth, hH, hv', hh]
  · have hv' : jsTruthy (some ver) = true := by simp [jsTruthy, hv]
    simp [validateAuthorizationCode, hcode, hnexp, hch, hmeth, hH, hv', hh]

/-- C4 witness: concrete S256 code — no verifier fails "Code verifier
required", and a verifier hashing to the stored challenge succeeds. -/
theorem pkce_s256_sound_witness :
    validateAuthorizationCode hashConst fixS256State 0 "c2" "cl" "u" none =
      (codeInvalid "Code verifier required", fixS256State) ∧
    validateAuthorizationCode hashConst fixS256State 0 "c2" "cl" "u" (some "anyverifier") =
      ({ valid := true, error := none, scope := none, resource := none },
       { fixS256State with
          authorizationCodes := mdel fixS256State.authorizationCodes "c2" }) :=
  have h := pkce_s256_sound fixS256State 0 "c2" fixS256Record "HASH"
    (by decide) (by decide) (by decide) (by decide) (by decide)
  ⟨h.2.1 hashConst none (by decide), h.2.2.2 hashConst "anyverifier" (by decide) (by decide)⟩

/-! ### C10: PKCE skipped for non-S256 methods -/

/-- C10: a code stored with a non-empty challenge but a method other than
exactly "S256" undergoes no verifier comparison: for every hash function
and every verifier (including none), redemption succeeds and consumes the
code, provided the lookup, expiry, client-id and redirect-URI checks
pass. -/
theorem pkce_skipped_for_non_s256 (s : OAuthState) (now : Nat) (code : String)
    (ac : AuthorizationCode) (H : String)
    (hcode : s.authorizationCodes code = some ac)
    (_hch : ac.codeChallenge = some H) (_hne : H ≠ "")
    (hmeth : ac.codeChallengeMethod ≠ some "S256")
    (hexp : now ≤ ac.expiresAt) :
    ∀ (hash : String → String) (v : Option String),
      validateAuthorizationCode hash s now code ac.clientId ac.redirectUri v =
        ({ valid := true, error := none, scope := ac.scope, resource := ac.resource },
         { s with authorizationCodes := mdel s.authorizationCodes code }) := by
  have hnexp : ¬ now > ac.expiresAt := by omega
  intro hash v
  simp [validateAuthorizationCode, hcode, hnexp, hmeth]

/-- C10 witness: the method-"plain" code redeems with no verifier. -/
theorem pkce_skipped_for_non_s256_witness :
    validateAuthorizationCode hashConst fixPlainMethodState 0 "c3" "cl" "u" none =
      ({ valid := true, error := none, scope := some "sc", resource := some "res" },
       { fixPlainMethodState with
          authorizationCodes := mdel fixPlainMethodState.authorizationCodes "c3" }) :=
  pkce_skipped_for_non_s256 fixPlainMethodState 0 "c3" fixPlainMethodRecord "HASH"
    (by decide) (by decide) (by decide) (by decide) (by decide) hashConst none

/-- Case analysis of `validateAccessToken`: absent token, expired token
(deleted on lookup), and live token. -/
theorem validateAccessToken_cases (s : OAuthState) (now : Nat) (token : String) :
    (s.issuedTokens token = none → validateAccessToken s now token = (false, s)) ∧
    (∀ d, s.issuedTokens token = some d → now > d.expiresAt →
      validateAccessToken s now token =
        (false, { s with issuedTokens := mdel s.issuedTokens token })) ∧
    (∀ d, s.issuedTokens token = some d → now ≤ d.expiresAt →
      validateAccessToken s now token = (true, s)) := by
  refine ⟨fun h => ?_, fun d hd hexp => ?_, fun d hd hexp => ?_⟩
  · simp [validateAccessToken, h]
  · simp [validateAccessToken, hd, hexp]
  · have hn : ¬ now > d.expiresAt := by omega
    simp [validateAccessToken, hd, hn]

/-! ### C6: validateAccessToken semantics -/

/-- C6 counterexample: the claim says `validateAccessToken` returns true
only when the stored expiry is strictly in the future, but at the boundary
`now = expiresAt` the code (`if (Date.now() > tokenData.expiresAt)`)
accepts the token: at time 100 a token expiring at 100 validates, while
its expiry 100 is not strictly greater than the current time 100. -/
theorem validateAccessToken_boundary_counterexample :
    validateAccessToken fixAccessState 100 "tok" = (true, fixAccessState) ∧
    fixAccessState.issuedTokens "tok" = some fixAccessRecord ∧
    ¬ 100 < fixAccessRecord.expiresAt := by
  refine ⟨rfl, by decide, by decide⟩

/-- C6 amended: `validateAccessToken` returns true iff the token is
present and its expiry has not passed (`now ≤ expiresAt`, so also exactly
at the expiry instant); a present entry with `now > expiresAt` is deleted
during the lookup and false is returned; an absent token returns false
with the store unchanged. -/
theorem validateAccessToken_spec (s : OAuthState) (now : Nat) (token : String) :
    (s.issuedTokens token = none → validateAccessToken s now token = (false, s)) ∧
    (∀ d, s.issuedTokens token = some d → now > d.expiresAt →
      validateAccessToken s now token =
        (false, { s with issuedTokens := mdel s.issuedTokens token })) ∧
    (∀ d, s.issuedTokens token = some d → now ≤ d.expiresAt →
      validateAccessToken s now token = (true, s)) :=
  validateAccessToken_cases s now token

/-- C6 witness: the amended characterization evaluated on the concrete
boundary fixture. -/
theorem validateAccessToken_spec_witness :
    validateAccessToken fixAccessState 100 "tok" = (true, fixAccessState) :=
  (validateAccessToken_spec fixAccessState 100 "tok").2.2 fixAccessRecord (by decide) (by decide)

/-! ### C9: the authorize endpoint never checks redirect_uri registration -/

/-- A registered client whose only registered redirect URI is the ChatGPT
callback. -/
def fixClient : RegisteredClient :=
  { client_id := "client_abc", client_secret := "sec", client_name := some "C",
    redirect_uris := ["https://chatgpt.com/aip/g-x/oauth/callback"],
    grant_types := ["authorization_code"], response_types := ["code"],
    token_endpoint_auth_method := "client_secret_post", created_at := 0 }

/-- A registry holding only `fixClient`. -/
def fixClients : String → Option RegisteredClient :=
  fun k => if k = "client_abc" then some fixClient else none

/-- A concrete stand-in for WHATWG `new URL` parse success in witnesses;
it agrees with the real parser on every string used below: the listed
absolute https URIs parse, the bare string "x" throws. -/
def parseOkConst : String → Bool := fun u =>
  decide (u = "https://evil.example/cb") ||
  decide (u = "https://chatgpt.com/aip/g-x/oauth/callback")

/-- C9 counterexample: the claim says every non-empty redirect_uri
whatsoever gets a 302 redirect with the code attached, but for the
malformed URI "x" (non-empty, valid client, response_type code) the
real handler stores the code and then `new URL("x")` throws, so the
response is a 500 error, not a redirect. -/
theorem authorize_unparseable_redirect_counterexample :
    (oauthAuthorize parseOkConst fixClients "chatgpt-mcp-client" emptyState 0
        (some "client_abc") (some "x") (some "code") none none none none none "fc2").1 =
      .thrown ∧
    (oauthAuthorize parseOkConst fixClients "chatgpt-mcp-client" emptyState 0
        (some "client_abc") (some "x") (some "code") none none none none none
        "fc2").2.authorizationCodes "fc2" =
      some ⟨"client_abc", "x", none, none, 600000, none, none⟩ :=
  ⟨by decide, by decide⟩

/-- C9 amended: for every known client id (per `validateClientId`),
response type `code` and non-empty redirect URI — with no condition
whatsoever relating the URI to the client's registered `redirect_uris` —
the authorize endpoint stores a fresh code bound to exactly that URI;
when `new URL(redirect_uri)` parses it then redirects there with the code
(and truthy state) attached, and when the parse fails the constructor
throws after the code was stored, so the server errors without
redirecting. -/
theorem authorize_ignores_registered_redirects
    (parseOk : String → Bool)
    (clients : String → Option RegisteredClient) (envClientId : String)
    (s : OAuthState) (now : Nat) (cid ruri : String)
    (state cch cchm scope resource : Option String) (freshCode : String)
    (hcid : cid ≠ "") (hvalid : validateClientId clients envClientId cid = true)
    (hruri : ruri ≠ "") :
    (generateAuthorizationCode s now cid ruri cch cchm scope resource
        freshCode).2.authorizationCodes freshCode =
      some ⟨cid, ruri, cch, cchm, now + AUTH_CODE_EXPIRY_MS, scope, resource⟩ ∧
    (parseOk ruri = true →
      oauthAuthorize parseOk clients envClientId s now (some cid) (some ruri) (some "code")
          state cch cchm scope resource freshCode =
        (.redirect ruri freshCode (if jsTruthy state then state else none),
         (generateAuthorizationCode s now cid ruri cch cchm scope resource freshCode).2)) ∧
    (parseOk ruri = false →
      oauthAuthorize parseOk clients envClientId s now (some cid) (some ruri) (some "code")
          state cch cchm scope resource freshCode =
        (.thrown,
         (generateAuthorizationCode s now cid ruri cch cchm scope resource freshCode).2)) := by
  have h1 : jsTruthy (some cid) = true := by simp [jsTruthy, hcid]
  have h2 : jsTruthy (some ruri) = true := by simp [jsTruthy, hruri]
  refine ⟨?_, fun hp => ?_, fun hp => ?_⟩
  · simp [generateAuthorizationCode, mset_get_self]
  · simp [oauthAuthorize, h1, h2, hvalid, hp, generateAuthorizationCode]
  · simp [oauthAuthorize, h1, h2, hvalid, hp, generateAuthorizationCode]

/-- C9 witness: `https://evil.example/cb` parses but is not among the
registered redirect URIs of the client, yet the endpoint redirects there
with a code. -/
theorem authorize_ignores_registered_redirects_witness :
    ¬ ("https://evil.example/cb" ∈ fixClient.redirect_uris) ∧
    oauthAuthorize parseOkConst fixClients "chatgpt-mcp-client" emptyState 0
        (some "client_abc") (some "https://evil.example/cb") (some "code") none none none
        none none "fc1" =
      (.redirect "https://evil.example/cb" "fc1" none,
       (generateAuthorizationCode emptyState 0 "client_abc" "https://evil.example/cb"
          none none none none "fc1").2) :=
  ⟨by decide,
   by
    exact (authorize_ignores_registered_redirects parseOkConst fixClients
      "chatgpt-mcp-client" emptyState 0 "client_abc" "https://evil.example/cb" none
      none none none none "fc1" (by decide) (by decide) (by decide)).2.1 (by decide)⟩

/-! ### C5: cross-client refresh rejected without state change -/

/-- The refresh token used by the C5/C7/C2 fixtures. -/
def fixRefreshRecord : RefreshToken :=
  { expiresAt := 1000, clientId := "cl", scope := some "sc", accessToken := some "A",
    resource := some "r1" }

/-- The access token paired with `fixRefreshRecord`. -/
def fixPairedAccessRecord : IssuedToken :=
  { expiresAt := 500, clientId := "cl", scope := some "sc", refreshToken := some "R",
    resource := some "r1" }

/-- A state holding exactly the pair (`A`, `R`). -/
def fixPairState : OAuthState :=
  { authorizationCodes := fun _ => none
    issuedTokens := mset emptyState.issuedTokens "A" fixPairedAccessRecord
    refreshTokens := mset emptyState.refreshTokens "R" fixRefreshRecord }

/-- C5: presenting an unexpired refresh token with a client id different
from the owning one fails 401 `invalid_grant` "Client ID mismatch" and
returns the stores completely unchanged; the refresh token (and, when
unexpired, its paired access token) still validates afterwards. -/
theorem cross_client_refresh_rejected (s : OAuthState) (now : Nat) (R : String)
    (rt : RefreshToken) (B resource : Option String) (fa fr : String)
    (hR : s.refreshTokens R = some rt) (hRne : R ≠ "")
    (hexp : now ≤ rt.expiresAt) (hB : B ≠ some rt.clientId) :
    refreshTokenGrant s now B (some R) resource fa fr =
      (.err 401 "invalid_grant" "Client ID mismatch", s) ∧
    (validateRefreshToken s now R).1.valid = true ∧
    (∀ A d, rt.accessToken = some A → s.issuedTokens A = some d → now ≤ d.expiresAt →
      validateAccessToken s now A = (true, s)) := by
  have hT : jsTruthy (some R) = true := by simp [jsTruthy, hRne]
  have hnexp : ¬ now > rt.expiresAt := by omega
  have hval : validateRefreshToken s now R =
      ({ valid := true, clientId := some rt.clientId, scope := rt.scope,
         resource := rt.resource, error := none }, s) := by
    simp [validateRefreshToken, hR, hnexp]
  have hB' : some rt.clientId ≠ B := fun h => hB h.symm
  refine ⟨?_, ?_, fun A d hA hd hle => ?_⟩
  · simp [refreshTokenGrant, hT, hval, hB']
  · simp [hval]
  · exact (validateAccessToken_cases s now A).2.2 d hd hle

/-- C5 witness: client `other` cannot refresh the token owned by `cl`;
the state is unchanged and both stored tokens still validate. -/
theorem cross_client_refresh_rejected_witness :
    refreshTokenGrant fixPairState 400 (some "other") (some "R") none "NA" "NR" =
      (.err 401 "invalid_grant" "Client ID mismatch", fixPairState) ∧
    (validateRefreshToken fixPairState 400 "R").1.valid = true ∧
    validateAccessToken fixPairState 400 "A" = (true, fixPairState) :=
  have h := cross_client_refresh_rejected fixPairState 400 "R" fixRefreshRecord
    (some "other") none "NA" "NR" (by decide) (by decide) (by decide) (by decide)
  ⟨h.1, h.2.1, h.2.2 "A" fixPairedAccessRecord (by decide) (by decide) (by decide)⟩

/-! ### Refresh-grant helpers -/

theorem mfilterExpiry_get_none {α : Type} (m : String → Option α) (exp : α → Nat)
    (now : Nat) (k : String) (h : m k = none) :
    mfilterExpiry m exp now k = none := by
  simp [mfilterExpiry, h]

theorem mfilterExpiry_get_keep {α : Type} (m : String → Option α) (exp : α → Nat)
    (now : Nat) (k : String) (v : α) (h : m k = some v) (hle : now ≤ exp v) :
    mfilterExpiry m exp now k = some v := by
  have : ¬ now > exp v := by omega
  simp [mfilterExpiry, h, this]

/-- Absent refresh tokens always fail with "Invalid refresh token". -/
theorem validateRefreshToken_absent (s : OAuthState) (now : Nat) (token : String)
    (h : s.refreshTokens token = none) :
    validateRefreshToken s now token =
      ({ valid := false, clientId := none, scope := none, resource := none,
         error := some "Invalid refresh token" }, s) := by
  unfold validateRefreshToken
  rw [h]

/-- Live refresh tokens validate, returning the stored client/scope/resource. -/
theorem validateRefreshToken_live (s : OAuthState) (now : Nat) (token : String)
    (rt : RefreshToken) (h : s.refreshTokens token = some rt)
    (hexp : now ≤ rt.expiresAt) :
    validateRefreshToken s now token =
      ({ valid := true, clientId := some rt.clientId, scope := rt.scope,
         resource := rt.resource, error := none }, s) := by
  have hn : ¬ now > rt.expiresAt := by omega
  simp [validateRefreshToken, h, hn]

/-- Revoking a refresh token whose stored access-token link is a non-empty
string deletes both members of the pair. -/
theorem revokeRefreshToken_eq (s : OAuthState) (R : String) (rt : RefreshToken)
    (A : String) (hR : s.refreshTokens R = some rt)
    (hA : rt.accessToken = some A) (hAne : A ≠ "") :
    revokeRefreshToken s R =
      { s with issuedTokens := mdel s.issuedTokens A,
               refreshTokens := mdel s.refreshTokens R } := by
  have ht : jsTruthy rt.accessToken = true := by simp [hA, jsTruthy, hAne]
  have ht2 : jsTruthy (some A) = true := by simp [jsTruthy, hAne]
  simp [revokeRefreshToken, hR, ht, hA, ht2]

/-- The success path of the refresh grant: validation, client check,
revocation of the old pair, then issuance of the fresh pair. -/
theorem refreshTokenGrant_success_eq (s : OAuthState) (now : Nat) (R : String)
    (rt : RefreshToken) (resource : Option String) (fa fr : String)
    (hR : s.refreshTokens R = some rt) (hRne : R ≠ "")
    (hexp : now ≤ rt.expiresAt) :
    refreshTokenGrant s now (some rt.clientId) (some R) resource fa fr =
      (.ok (getTokenResponse fa fr rt.scope),
       (generateTokenPair (revokeRefreshToken s R) now
         ((jsOr (some rt.clientId) (some "chatgpt")).getD "chatgpt") rt.scope
         (jsOr rt.resource resource) fa fr).2) := by
  have hT : jsTruthy (some R) = true := by simp [jsTruthy, hRne]
  have hval := validateRefreshToken_live s now R rt hR hexp
  simp [refreshTokenGrant, hT, hval, generateTokenPair]

/-- A refresh token stored with no resource binding. -/
def fixNoResRefreshRecord : RefreshToken :=
  { expiresAt := 1000, clientId := "cl", scope := some "sc", accessToken := some "A",
    resource := none }

/-- `fixPairState` with the refresh token lacking a resource. -/
def fixNoResPairState : OAuthState :=
  { fixPairState with refreshTokens := mset emptyState.refreshTokens "R" fixNoResRefreshRecord }

/-! ### C7: refresh carries forward the original scope and resource -/

/-- C7 counterexample: the stored refresh token has no resource
(`resource = none`), yet refreshing with `resource=evil` in the request
body stores the new pair bound to resource `evil`, because the handler
computes `validation.resource || resource`.  The claim demanded the new
pair carry exactly the stored (absent) resource for every request
parameter. -/
theorem refresh_resource_fallback_counterexample :
    (fixNoResPairState.refreshTokens "R").map (fun d => d.resource) = some none ∧
    ((refreshTokenGrant fixNoResPairState 0 (some "cl") (some "R") (some "evil") "NA"
        "NR").2.refreshTokens "NR").map (fun d => d.resource) = some (some "evil") := by
  constructor
  · decide
  · decide

/-- C7 amended: a successful refresh stores the new access and refresh
tokens with exactly the redeemed token's scope, and with resource
`stored || requested` (JS `validation.resource || resource`): the stored
resource is carried forward exactly when it is truthy (present and
non-empty); otherwise the resource parameter of the refresh request is
used. -/
theorem refresh_carries_scope_and_resource (s : OAuthState) (now : Nat) (R : String)
    (rt : RefreshToken) (reqResource : Option String) (fa fr : String)
    (hR : s.refreshTokens R = some rt) (hRne : R ≠ "")
    (hexp : now ≤ rt.expiresAt) :
    ((refreshTokenGrant s now (some rt.clientId) (some R) reqResource fa fr).2.issuedTokens
        fa).map (fun d => (d.scope, d.resource)) =
      some (rt.scope, jsOr rt.resource reqResource) ∧
    ((refreshTokenGrant s now (some rt.clientId) (some R) reqResource fa fr).2.refreshTokens
        fr).map (fun d => (d.scope, d.resource)) =
      some (rt.scope, jsOr rt.resource reqResource) ∧
    (jsTruthy rt.resource = true → jsOr rt.resource reqResource = rt.resource) := by
  rw [refreshTokenGrant_success_eq s now R rt reqResource fa fr hR hRne hexp]
  refine ⟨?_, ?_, fun ht => by simp [jsOr, ht]⟩
  · have := mfilterExpiry_get_keep
      (mset (revokeRefreshToken s R).issuedTokens fa
        ⟨now + TOKEN_EXPIRY_MS, (jsOr (some rt.clientId) (some "chatgpt")).getD "chatgpt",
         rt.scope, some fr, jsOr rt.resource reqResource⟩)
      (fun d => d.expiresAt) now fa _ (mset_get_self _ _ _) (by simp [TOKEN_EXPIRY_MS])
    simp [generateTokenPair, cleanupExpiredTokens, this]
  · have := mfilterExpiry_get_keep
      (mset (revokeRefreshToken s R).refreshTokens fr
        ⟨now + REFRESH_TOKEN_EXPIRY_MS, (jsOr (some rt.clientId) (some "chatgpt")).getD "chatgpt",
         rt.scope, some fa, jsOr rt.resource reqResource⟩)
      (fun d => d.expiresAt) now fr _ (mset_get_self _ _ _) (by simp [REFRESH_TOKEN_EXPIRY_MS])
    simp [generateTokenPair, cleanupExpiredTokens, this]

/-- C7 witness: refreshing the fixture pair (stored resource `r1`, scope
`sc`) stores the new pair with scope `sc` and resource `r1`, for a request
that supplied a different resource. -/
theorem refresh_carries_scope_and_resource_witness :
    ((refreshTokenGrant fixPairState 400 (some "cl") (some "R") (some "other") "NA"
        "NR").2.issuedTokens "NA").map (fun d => (d.scope, d.resource)) =
      some (some "sc", some "r1") ∧
    ((refreshTokenGrant fixPairState 400 (some "cl") (some "R") (some "other") "NA"
        "NR").2.refreshTokens "NR").map (fun d => (d.scope, d.resource)) =
      some (some "sc", some "r1") :=
  have h := refresh_carries_scope_and_resource fixPairState 400 "R" fixRefreshRecord
    (some "other") "NA" "NR" (by decide) (by decide) (by decide)
  ⟨h.1, h.2.1⟩

/-! ### C2: refresh rotation invalidates the old pair -/

/-- C2: redeeming an unexpired refresh token `R` (owned by the calling
client, paired with access token `A`) succeeds and returns a fresh access
token `fa ≠ A`; afterwards `R` is gone from the refresh store — so every
later `validateRefreshToken` call on `R` fails — and `A` is gone from the
access store, so `validateAccessToken` rejects it immediately.  The
freshness hypotheses (`fa ≠ A`, `fr ≠ R`) model `crypto.randomBytes`
never reproducing an existing token string. -/
theorem refresh_rotation_invalidates_old (s : OAuthState) (now : Nat) (R A : String)
    (rt : RefreshToken) (resource : Option String) (fa fr : String)
    (hR : s.refreshTokens R = some rt) (hRne : R ≠ "")
    (hexp : now ≤ rt.expiresAt)
    (hA : rt.accessToken = some A) (hAne : A ≠ "")
    (hfa : fa ≠ A) (hfr : fr ≠ R) :
    (refreshTokenGrant s now (some rt.clientId) (some R) resource fa fr).1 =
      .ok (getTokenResponse fa fr rt.scope) ∧
    (getTokenResponse fa fr rt.scope).access_token = fa ∧ fa ≠ A ∧
    (refreshTokenGrant s now (some rt.clientId) (some R) resource fa
        fr).2.refreshTokens R = none ∧
    (refreshTokenGrant s now (some rt.clientId) (some R) resource fa
        fr).2.issuedTokens A = none ∧
    (∀ now2, validateRefreshToken
        (refreshTokenGrant s now (some rt.clientId) (some R) resource fa fr).2 now2 R =
      ({ valid := false, clientId := none, scope := none, resource := none,
         error := some "Invalid refresh token" },
       (refreshTokenGrant s now (some rt.clientId) (some R) resource fa fr).2)) ∧
    (∀ now2, validateAccessToken
        (refreshTokenGrant s now (some rt.clientId) (some R) resource fa fr).2 now2 A =
      (false, (refreshTokenGrant s now (some rt.clientId) (some R) resource fa fr).2)) := by
  have hgrant := refreshTokenGrant_success_eq s now R rt resource fa fr hR hRne hexp
  have hrev := revokeRefreshToken_eq s R rt A hR hA hAne
  have hRfr : R ≠ fr := fun h => hfr h.symm
  have hAfa : A ≠ fa := fun h => hfa h.symm
  have hfinalR : (refreshTokenGrant s now (some rt.clientId) (some R) resource fa
      fr).2.refreshTokens R = none := by
    rw [hgrant]
    simp only [generateTokenPair, cleanupExpiredTokens]
    rw [hrev]
    apply mfilterExpiry_get_none
    rw [mset_get_ne _ hRfr]
    exact mdel_get_self _ _
  have hfinalA : (refreshTokenGrant s now (some rt.clientId) (some R) resource fa
      fr).2.issuedTokens A = none := by
    rw [hgrant]
    simp only [generateTokenPair, cleanupExpiredTokens]
    rw [hrev]
    apply mfilterExpiry_get_none
    rw [mset_get_ne _ hAfa]
    exact mdel_get_self _ _
  refine ⟨?_, rfl, hfa, hfinalR, hfinalA,
    fun now2 => validateRefreshToken_absent _ now2 R hfinalR,
    fun now2 => (validateAccessToken_cases _ now2 A).1 hfinalA⟩
  rw [hgrant]

/-- C2 witness: rotating the fixture pair (`A`, `R`) yields the new access
token `NA`, removes `R` and `A`, and `A` is rejected immediately after. -/
theorem refresh_rotation_invalidates_old_witness :
    (refreshTokenGrant fixPairState 400 (some "cl") (some "R") none "NA" "NR").1 =
      .ok (getTokenResponse "NA" "NR" (some "sc")) ∧
    (refreshTokenGrant fixPairState 400 (some "cl") (some "R") none "NA"
        "NR").2.refreshTokens "R" = none ∧
    (refreshTokenGrant fixPairState 400 (some "cl") (some "R") none "NA"
        "NR").2.issuedTokens "A" = none ∧
    validateAccessToken
        (refreshTokenGrant fixPairState 400 (some "cl") (some "R") none "NA" "NR").2 401 "A" =
      (false, (refreshTokenGrant fixPairState 400 (some "cl") (some "R") none "NA" "NR").2) :=
  have h := refresh_rotation_invalidates_old fixPairState 400 "R" "A" fixRefreshRecord
    none "NA" "NR" (by decide) (by decide) (by decide) (by decide) (by decide)
    (by decide) (by decide)
  ⟨h.1, h.2.2.2.1, h.2.2.2.2.1, h.2.2.2.2.2.2 401⟩

/-! ### C8: the expiry sweeper -/

/-- C8 counterexample: `cleanupExpiredTokens` is invoked from inside
`generateTokenPair` — a request-serving operation — so issuing a token
pair at time 2000 deletes the expired authorization code `code1`
(expiry 1000) as a side effect, contradicting "never triggered solely as
a side effect of a request-serving operation" (and there is no interval
timer calling the OAuth sweeper anywhere in the code). -/
theorem sweeper_triggered_by_issuance_counterexample :
    fixPlainCodeState.authorizationCodes "code1" = some fixPlainCodeRecord ∧
    (generateTokenPair fixPlainCodeState 2000 "c" none none "NA" "NR").2.authorizationCodes
        "code1" = none :=
  ⟨by decide, by decide⟩

/-- C8 amended: `cleanupExpiredTokens` scans all three stores and keeps an
entry iff its expiry has not passed (`now ≤ expiresAt`); it is invoked on
every token-pair issuance rather than on an independent timer, so the
authorization-code store after `generateTokenPair` is exactly the swept
one. -/
theorem sweeper_semantics (s : OAuthState) (now : Nat) :
    (∀ k d, (cleanupExpiredTokens s now).authorizationCodes k = some d ↔
      (s.authorizationCodes k = some d ∧ now ≤ d.expiresAt)) ∧
    (∀ k d, (cleanupExpiredTokens s now).issuedTokens k = some d ↔
      (s.issuedTokens k = some d ∧ now ≤ d.expiresAt)) ∧
    (∀ k d, (cleanupExpiredTokens s now).refreshTokens k = some d ↔
      (s.refreshTokens k = some d ∧ now ≤ d.expiresAt)) ∧
    (∀ (c : String) (sc re : Option String) (fa fr k : String),
      (generateTokenPair s now c sc re fa fr).2.authorizationCodes k =
        (cleanupExpiredTokens s now).authorizationCodes k) :=
  ⟨fun _ _ => mfilterExpiry_get_some _ _ _ _ _,
   fun _ _ => mfilterExpiry_get_some _ _ _ _ _,
   fun _ _ => mfilterExpiry_get_some _ _ _ _ _,
   fun _ _ _ _ _ _ => rfl⟩

/-- C8 witness: at time 500 the sweep keeps the code expiring at 1000. -/
theorem sweeper_semantics_witness :
    (cleanupExpiredTokens fixPlainCodeState 500).authorizationCodes "code1" =
      some fixPlainCodeRecord :=
  ((sweeper_semantics fixPlainCodeState 500).1 "code1" fixPlainCodeRecord).mpr
    ⟨by decide, by decide⟩

/-! ### C3: pairing of access and refresh tokens -/

/-- The pairing invariant exactly as the specification states it: every
stored access token has its linked refresh token present with a back
link, and vice versa. -/
def pairingInvariantClaim (s : OAuthState) : Prop :=
  (∀ a d, s.issuedTokens a = some d →
    ∃ r rd, d.refreshToken = some r ∧ s.refreshTokens r = some rd ∧
      rd.accessToken = some a) ∧
  (∀ r rd, s.refreshTokens r = some rd →
    ∃ a d, rd.accessToken = some a ∧ s.issuedTokens a = some d ∧
      d.refreshToken = some r)

/-- States reachable from the empty stores by the mcp-oauth.ts operations,
with non-decreasing clock; the random token strings fed to
`generateTokenPair` are fresh and non-empty, as `crypto.randomBytes`
output is. -/
inductive Reachable : OAuthState → Nat → Prop where
  | init : Reachable emptyState 0
  | genCode (s : OAuthState) (t t' : Nat) (clientId redirectUri : String)
      (cch cchm scope resource : Option String) (code : String) :
      Reachable s t → t ≤ t' →
      Reachable (generateAuthorizationCode s t' clientId redirectUri cch cchm scope
        resource code).2 t'
  | codeValidate (hash : String → String) (s : OAuthState) (t t' : Nat)
      (code cid ruri : String) (v : Option String) :
      Reachable s t → t ≤ t' →
      Reachable (validateAuthorizationCode hash s t' code cid ruri v).2 t'
  | accessValidate (s : OAuthState) (t t' : Nat) (token : String) :
      Reachable s t → t ≤ t' →
      Reachable (validateAccessToken s t' token).2 t'
  | refreshValidate (s : OAuthState) (t t' : Nat) (token : String) :
      Reachable s t → t ≤ t' →
      Reachable (validateRefreshToken s t' token).2 t'
  | revoke (s : OAuthState) (t t' : Nat) (token : String) :
      Reachable s t → t ≤ t' →
      Reachable (revokeRefreshToken s token) t'
  | pairGen (s : OAuthState) (t t' : Nat) (clientId : String)
      (scope resource : Option String) (a r : String) :
      Reachable s t → t ≤ t' → a ≠ "" → r ≠ "" →
      s.issuedTokens a = none → s.refreshTokens r = none →
      Reachable (generateTokenPair s t' clientId scope resource a r).2 t'
  | sweep (s : OAuthState) (t t' : Nat) :
      Reachable s t → t ≤ t' →
      Reachable (cleanupExpiredTokens s t') t'

/-- The pairing that actually holds: every access token whose expiry has
not passed has a non-empty key and a linked refresh token that is
present, back-linked, and expires no earlier. -/
def livePairing (s : OAuthState) (t : Nat) : Prop :=
  ∀ a d, s.issuedTokens a = some d → t ≤ d.expiresAt →
    a ≠ "" ∧ ∃ r rd, d.refreshToken = some r ∧ s.refreshTokens r = some rd ∧
      rd.accessToken = some a ∧ d.expiresAt ≤ rd.expiresAt

theorem livePairing_mono (s : OAuthState) {t t' : Nat} (h : t ≤ t')
    (hp : livePairing s t) : livePairing s t' :=
  fun a d hd hle => hp a d hd (le_trans h hle)

theorem livePairing_congr {s s' : OAuthState}
    (hi : s'.issuedTokens = s.issuedTokens) (hr : s'.refreshTokens = s.refreshTokens)
    {t : Nat} (hp : livePairing s t) : livePairing s' t := by
  intro a d hd hle
  rw [hi] at hd
  obtain ⟨hne, r, rd, h1, h2, h3, h4⟩ := hp a d hd hle
  exact ⟨hne, r, rd, h1, by rw [hr]; exact h2, h3, h4⟩

/-- `validateAuthorizationCode` never touches the token stores. -/
theorem validateAuthorizationCode_token_stores (hash : String → String) (s : OAuthState)
    (now : Nat) (code cid ruri : String) (v : Option String) :
    (validateAuthorizationCode hash s now code cid ruri v).2.issuedTokens = s.issuedTokens ∧
    (validateAuthorizationCode hash s now code cid ruri v).2.refreshTokens = s.refreshTokens := by
  unfold validateAuthorizationCode
  cases hm : s.authorizationCodes code
  · exact ⟨rfl, rfl⟩
  · dsimp only
    split_ifs <;> exact ⟨rfl, rfl⟩

theorem livePairing_validateAccess (s : OAuthState) (t : Nat) (token : String)
    (hp : livePairing s t) : livePairing (validateAccessToken s t token).2 t := by
  unfold validateAccessToken
  cases hm : s.issuedTokens token with
  | none => exact hp
  | some td =>
    dsimp only
    split_ifs with hexp
    · intro a d hd hle
      dsimp only at hd ⊢
      by_cases hat : a = token
      · subst hat
        rw [mdel_get_self] at hd
        cases hd
      · rw [mdel_get_ne _ hat] at hd
        exact hp a d hd hle
    · exact hp

theorem livePairing_validateRefresh (s : OAuthState) (t : Nat) (token : String)
    (hp : livePairing s t) : livePairing (validateRefreshToken s t token).2 t := by
  unfold validateRefreshToken
  cases hm : s.refreshTokens token with
  | none => exact hp
  | some rt =>
    dsimp only
    split_ifs with hexp
    · intro a d hd hle
      dsimp only at hd ⊢
      obtain ⟨hne, r, rd, h1, h2, h3, h4⟩ := hp a d hd hle
      have hrT : r ≠ token := by
        intro hEq
        subst hEq
        rw [hm] at h2
        injection h2 with h2
        subst h2
        omega
      exact ⟨hne, r, rd, h1, by rw [mdel_get_ne _ hrT]; exact h2, h3, h4⟩
    · exact hp

theorem livePairing_revoke (s : OAuthState) (t : Nat) (token : String)
    (hp : livePairing s t) : livePairing (revokeRefreshToken s token) t := by
  unfold revokeRefreshToken
  cases hm : s.refreshTokens token with
  | none =>
    dsimp only
    intro a d hd hle
    dsimp only at hd ⊢
    obtain ⟨hne, r, rd, h1, h2, h3, h4⟩ := hp a d hd hle
    have hrT : r ≠ token := by
      intro hEq
      subst hEq
      rw [hm] at h2
      cases h2
    exact ⟨hne, r, rd, h1, by rw [mdel_get_ne _ hrT]; exact h2, h3, h4⟩
  | some rt =>
    dsimp only
    by_cases ht : jsTruthy rt.accessToken = true
    · rw [if_pos ht]
      intro a d hd hle
      dsimp only at hd ⊢
      by_cases haX : a = rt.accessToken.getD ""
      · rw [haX, mdel_get_self] at hd
        cases hd
      · rw [mdel_get_ne _ haX] at hd
        obtain ⟨hne, r, rd, h1, h2, h3, h4⟩ := hp a d hd hle
        have hrT : r ≠ token := by
          intro hEq
          subst hEq
          rw [hm] at h2
          injection h2 with h2
          subst h2
          exact haX (by rw [h3]; rfl)
        exact ⟨hne, r, rd, h1, by rw [mdel_get_ne _ hrT]; exact h2, h3, h4⟩
    · rw [if_neg ht]
      intro a d hd hle
      dsimp only at hd ⊢
      obtain ⟨hne, r, rd, h1, h2, h3, h4⟩ := hp a d hd hle
      have hrT : r ≠ token := by
        intro hEq
        subst hEq
        rw [hm] at h2
        injection h2 with h2
        subst h2
        exact ht (by rw [h3]; simp [jsTruthy, hne])
      exact ⟨hne, r, rd, h1, by rw [mdel_get_ne _ hrT]; exact h2, h3, h4⟩

theorem livePairing_sweep (s : OAuthState) {t t' : Nat} (hle : t ≤ t')
    (hp : livePairing s t) : livePairing (cleanupExpiredTokens s t') t' := by
  intro a d hd hlive
  rw [show (cleanupExpiredTokens s t').issuedTokens a =
      mfilterExpiry s.issuedTokens (fun x => x.expiresAt) t' a from rfl,
    mfilterExpiry_get_some] at hd
  obtain ⟨hd, _⟩ := hd
  obtain ⟨hne, r, rd, h1, h2, h3, h4⟩ := hp a d hd (le_trans hle hlive)
  refine ⟨hne, r, rd, h1, ?_, h3, h4⟩
  exact mfilterExpiry_get_keep _ _ _ _ _ h2 (le_trans hlive h4)

theorem livePairing_pairGen (s : OAuthState) (t' : Nat) (clientId : String)
    (scope resource : Option String) (a r : String)
    (ha : a ≠ "") (hr : r ≠ "")
    (hfa : s.issuedTokens a = none) (hfr : s.refreshTokens r = none)
    (hp : livePairing s t') :
    livePairing (generateTokenPair s t' clientId scope resource a r).2 t' := by
  intro a' d' hd' hlive
  rw [show (generateTokenPair s t' clientId scope resource a r).2.issuedTokens a' =
      mfilterExpiry (mset s.issuedTokens a
        ⟨t' + TOKEN_EXPIRY_MS, clientId, scope, some r, resource⟩)
        (fun x => x.expiresAt) t' a' from rfl, mfilterExpiry_get_some] at hd'
  obtain ⟨hd', _⟩ := hd'
  have hrefresh : (generateTokenPair s t' clientId scope resource a r).2.refreshTokens =
      mfilterExpiry (mset s.refreshTokens r
        ⟨t' + REFRESH_TOKEN_EXPIRY_MS, clientId, scope, some a, resource⟩)
        (fun x => x.expiresAt) t' := rfl
  by_cases haa : a' = a
  · subst haa
    rw [mset_get_self] at hd'
    injection hd' with hd'
    subst hd'
    refine ⟨ha, r, ⟨t' + REFRESH_TOKEN_EXPIRY_MS, clientId, scope, some a', resource⟩,
      rfl, ?_, rfl, ?_⟩
    · rw [hrefresh]
      exact mfilterExpiry_get_keep _ _ _ _ _ (mset_get_self _ _ _)
        (by dsimp only; simp only [REFRESH_TOKEN_EXPIRY_MS]; omega)
    · dsimp only
      simp only [TOKEN_EXPIRY_MS, REFRESH_TOKEN_EXPIRY_MS]
      omega
  · rw [mset_get_ne _ haa] at hd'
    obtain ⟨hne, r', rd', h1, h2, h3, h4⟩ := hp a' d' hd' hlive
    have hrr : r' ≠ r := by
      intro hEq
      subst hEq
      rw [hfr] at h2
      cases h2
    refine ⟨hne, r', rd', h1, ?_, h3, h4⟩
    rw [hrefresh]
    apply mfilterExpiry_get_keep
    · rw [mset_get_ne _ hrr]
      exact h2
    · exact le_trans hlive h4

/-- Every reachable state satisfies the live pairing invariant. -/
theorem reachable_livePairing : ∀ s t, Reachable s t → livePairing s t := by
  intro s t h
  induction h with
  | init =>
    intro a d hd _
    cases hd
  | genCode s t t' cid ruri cch cchm sc re code hre hle ih =>
    exact livePairing_congr rfl rfl (livePairing_mono s hle ih)
  | codeValidate hash s t t' code cid ruri v hre hle ih =>
    have hto := validateAuthorizationCode_token_stores hash s t' code cid ruri v
    exact livePairing_congr hto.1 hto.2 (livePairing_mono s hle ih)
  | accessValidate s t t' token hre hle ih =>
    exact livePairing_validateAccess s t' token (livePairing_mono s hle ih)
  | refreshValidate s t t' token hre hle ih =>
    exact livePairing_validateRefresh s t' token (livePairing_mono s hle ih)
  | revoke s t t' token hre hle ih =>
    exact livePairing_revoke s t' token (livePairing_mono s hle ih)
  | pairGen s t t' cid sc re a r hre hle ha hr hfa hfr ih =>
    exact livePairing_pairGen s t' cid sc re a r ha hr hfa hfr (livePairing_mono s hle ih)
  | sweep s t t' hre hle ih =>
    exact livePairing_sweep s hle ih

/-- The state after issuing pair (`A`, `R`) at time 0. -/
def fixPairGenState : OAuthState :=
  (generateTokenPair emptyState 0 "c" none none "A" "R").2

/-- `fixPairGenState` swept two hours later: the access token (1-hour TTL)
is gone, the refresh token (30-day TTL) remains. -/
def fixLingeringState : OAuthState :=
  cleanupExpiredTokens fixPairGenState 7200000

/-- C3 counterexample: a reachable state violating the claimed two-sided
pairing invariant.  Two hours after issuance the sweep deletes the
expired access token while its 30-day refresh token remains, so the
refresh token no longer has a paired access token in the store. -/
theorem pairing_claim_counterexample :
    Reachable fixLingeringState 7200000 ∧ ¬ pairingInvariantClaim fixLingeringState := by
  constructor
  · exact Reachable.sweep fixPairGenState 0 7200000
      (Reachable.pairGen emptyState 0 0 "c" none none "A" "R" Reachable.init
        (Nat.le_refl 0) (by decide) (by decide) rfl rfl)
      (by omega)
  · intro hinv
    have hlook : fixLingeringState.refreshTokens "R" =
        some ⟨2592000000, "c", none, some "A", none⟩ := by decide
    obtain ⟨a, d, hacc, hd, _⟩ := hinv.2 "R" ⟨2592000000, "c", none, some "A", none⟩ hlook
    have ha : a = "A" := by
      have : some "A" = some a := hacc
      injection this with h
      exact h.symm
    subst ha
    have hnone : fixLingeringState.issuedTokens "A" = none := by decide
    rw [hnone] at hd
    cases hd

/-- C3 amended: in every reachable state, every access token whose expiry
has not passed is linked to exactly one refresh token that is present in
the refresh store, back-links it, and expires no earlier; the converse
direction of the claim fails because refresh tokens (30-day TTL) outlive
their paired access tokens (1-hour TTL).  Redeeming a refresh token still
removes both members of the old pair (`revokeRefreshToken` deletes the
linked access token and then the refresh token) before the new pair is
stored. -/
theorem token_pairing_amended (s : OAuthState) (t : Nat) (h : Reachable s t) :
    (∀ a d, s.issuedTokens a = some d → t ≤ d.expiresAt →
      ∃ r rd, d.refreshToken = some r ∧ s.refreshTokens r = some rd ∧
        rd.accessToken = some a ∧ d.expiresAt ≤ rd.expiresAt) ∧
    (∀ R rt A, s.refreshTokens R = some rt → rt.accessToken = some A → A ≠ "" →
      (revokeRefreshToken s R).refreshTokens R = none ∧
      (revokeRefreshToken s R).issuedTokens A = none) := by
  refine ⟨fun a d hd hle => (reachable_livePairing s t h a d hd hle).2,
    fun R rt A hR hA hAne => ?_⟩
  rw [revokeRefreshToken_eq s R rt A hR hA hAne]
  exact ⟨mdel_get_self _ _, mdel_get_self _ _⟩

/-- The access-token record stored for `A` in `fixPairGenState`. -/
def fixGenAccessRecord : IssuedToken :=
  { expiresAt := 3600000, clientId := "c", scope := none, refreshToken := some "R",
    resource := none }

/-- C3 witness: the amended invariant evaluated on the concrete reachable
state right after issuing the pair (`A`, `R`). -/
theorem token_pairing_amended_witness :
    fixPairGenState.issuedTokens "A" = some fixGenAccessRecord ∧
    (∃ r rd, fixGenAccessRecord.refreshToken = some r ∧
      fixPairGenState.refreshTokens r = some rd ∧ rd.accessToken = some "A" ∧
      fixGenAccessRecord.expiresAt ≤ rd.expiresAt) :=
  ⟨by decide,
   (token_pairing_amended fixPairGenState 0
      (Reachable.pairGen emptyState 0 0 "c" none none "A" "R" Reachable.init
        (Nat.le_refl 0) (by decide) (by decide) rfl rfl)).1
     "A" fixGenAccessRecord (by decide) (by decide)⟩

end GitGPT
